import Mathlib

/-!
# SiteSentinel — verification of the Link Discovery & Risk Scoring Engine

Shallow embedding of the SiteSentinel analysis backend:

* `src/utils/score-calculator.util.js` — `calculateCategoryScore`,
  `calculateOverallScore` (weighted category scores, overall mean);
* `src/checks/safety.check.js` (lines 155–170) — the malware-flag
  post-processing of the Safety category;
* `src/routes/analyze.route.js` (lines 64–71) — the overall-score override;
* `src/checks/external-links.check.js` — `scoreExternalLink`,
  `extractDynamicLinks` and the pure tail of `analyze` (link merge,
  dedup, 50-link scoring cap, check generation).

JavaScript numbers in the aggregator are multiples of 1/2 far below 2^52,
so exact rational arithmetic (`ℚ`) models them faithfully; `Math.round`
is `⌊q + 1/2⌋`.  Host-environment effects (the WHATWG `new URL` parser,
the axios network probe, the headless browser) enter as explicit inputs:
an `Option`/`Except` value stands for the outcome of the corresponding
library call, and a `String → _` oracle stands for a per-link call.
-/

/-! ## JavaScript string primitives, modelled on `List Char` -/

/-- `needle` occurs as a contiguous substring of `hay` (JS `String.prototype.includes`). -/
def charsContains (hay pat : List Char) : Bool :=
  match hay with
  | [] => pat.isEmpty
  | _ :: t => pat.isPrefixOf hay || charsContains t pat

/-- JS `s.includes(pat)`. -/
def containsSubstr (s pat : String) : Bool :=
  charsContains s.data pat.data

/-- JS `s.startsWith(pre)`. -/
def strStartsWith (s pre : String) : Bool :=
  pre.data.isPrefixOf s.data

/-- JS `s.toLowerCase()` (all strings scored here are ASCII, where the two agree). -/
def jsToLower (s : String) : String :=
  ⟨s.data.map Char.toLower⟩

/-- JS `s.split(sep)` for a single-character separator. -/
def splitOnChar (sep : Char) : List Char → List (List Char)
  | [] => [[]]
  | c :: t =>
    if c = sep then [] :: splitOnChar sep t
    else
      match splitOnChar sep t with
      | h :: r => (c :: h) :: r
      | [] => [[c]]

/-- First-occurrence deduplication: JS `[...new Set(list)]` keeps the first
occurrence of each element, in insertion order. -/
def jsSetDedup (l : List String) : List String :=
  l.foldl (fun acc x => if x ∈ acc then acc else acc ++ [x]) []

/-! ## The IPv4-literal regex of `scoreExternalLink`

JS: `/https?:\/\/\d{1,3}\.\d{1,3}\.\d{1,3}\.\d{1,3}/.test(linkUrl)` —
an unanchored search; `\d{1,3}` backtracks, so a match at a position is
the existence of run lengths 1–3 making the pattern fit. -/

/-- All remainders after consuming one, two or three leading digits. -/
def matchDigits13 (cs : List Char) : List (List Char) :=
  match cs with
  | c1 :: t1 =>
    if c1.isDigit then
      match t1 with
      | c2 :: t2 =>
        if c2.isDigit then
          match t2 with
          | c3 :: t3 => if c3.isDigit then [t1, t2, t3] else [t1, t2]
          | [] => [t1, t2]
        else [t1]
      | [] => [t1]
    else []
  | [] => []

/-- Remainders after consuming `.` followed by one to three digits. -/
def matchDotDigits13 (cs : List Char) : List (List Char) :=
  match cs with
  | '.' :: t => matchDigits13 t
  | _ => []

/-- `\d{1,3}\.\d{1,3}\.\d{1,3}\.\d{1,3}` matches a prefix of `cs`. -/
def quadAt (cs : List Char) : Bool :=
  (matchDigits13 cs).any fun r1 =>
    (matchDotDigits13 r1).any fun r2 =>
      (matchDotDigits13 r2).any fun r3 =>
        !(matchDotDigits13 r3).isEmpty

/-- `https?:\/\/` then the dotted quad, anchored at the head of `cs`. -/
def ipv4AfterScheme (cs : List Char) : Bool :=
  (if ("http://".data).isPrefixOf cs then quadAt (cs.drop 7) else false)
    || (if ("https://".data).isPrefixOf cs then quadAt (cs.drop 8) else false)

/-- Unanchored search over every start position. -/
def ipv4Search : List Char → Bool
  | [] => false
  | c :: t => ipv4AfterScheme (c :: t) || ipv4Search t

/-- The whole `.test` call on the (case-sensitive) original URL. -/
def ipv4UrlTest (s : String) : Bool :=
  ipv4Search s.data

/-! ## Score calculator (`src/utils/score-calculator.util.js`) -/

/-- Check status strings `'pass' | 'warn' | 'info' | 'fail' | 'error'`. -/
inductive CheckStatus where
  | pass
  | warn
  | info
  | fail
  | error
deriving DecidableEq

/-- Check severity strings `'critical' | 'high' | 'medium' | 'low'`. -/
inductive Severity where
  | critical
  | high
  | medium
  | low
deriving DecidableEq

/-- A `CheckResult` as pushed by every category check. -/
structure Check where
  name : String
  status : CheckStatus
  description : String
  severity : Severity
deriving DecidableEq

/-- `{'critical': 3, 'high': 2, 'medium': 1, 'low': 0.5}[check.severity]`
(the `|| 1` fallback is unreachable for the four severity values). -/
def severityWeight : Severity → ℚ
  | Severity.critical => 3
  | Severity.high => 2
  | Severity.medium => 1
  | Severity.low => 1 / 2

/-- `checkScore`: pass → 100, warn → 60, info → 75, fail and error → 0. -/
def statusValue : CheckStatus → ℚ
  | CheckStatus.pass => 100
  | CheckStatus.warn => 60
  | CheckStatus.info => 75
  | CheckStatus.fail => 0
  | CheckStatus.error => 0

/-- JS `Math.round` (half rounds toward +∞). -/
def jsRound (q : ℚ) : ℤ :=
  ⌊q + 1 / 2⌋

/-- `calculateCategoryScore(checks)`; the argument is `none` when the JS
caller passes `null`/`undefined` (guard `!checks || checks.length === 0`). -/
def calculateCategoryScore : Option (List Check) → ℤ
  | none => 0
  | some checks =>
    if checks.length = 0 then 0
    else
      let totals := checks.foldl
        (fun (acc : ℚ × ℚ) check =>
          (acc.1 + statusValue check.status * severityWeight check.severity,
           acc.2 + severityWeight check.severity))
        (0, 0)
      jsRound (totals.1 / totals.2)

/-- The fields of a `CategoryResult` that the route handler reads.  Only
`SafetyCheck` ever sets `malwareDetected`; for every other category the JS
property is absent, which `cat.malwareDetected === true` treats as `false`. -/
structure CategoryResult where
  category : String
  score : ℤ
  checks : List Check
  malwareDetected : Bool
deriving DecidableEq

/-- `calculateOverallScore(categories)`: `Math.round` of the mean of the
category scores (the route always passes six categories, so the
division-by-zero case of an empty list never arises there). -/
def calculateOverallScore (categories : List CategoryResult) : ℤ :=
  jsRound (((categories.map fun cat => (cat.score : ℚ)).foldl (· + ·) 0)
    / (categories.length : ℚ))

/-- `src/routes/analyze.route.js` lines 64–71: overall score, then the
malware override. -/
def routeOverallScore (categories : List CategoryResult) : ℤ :=
  let overallScore := calculateOverallScore categories
  if categories.any fun cat => cat.malwareDetected then 0 else overallScore

/-- `src/checks/safety.check.js` lines 155–170: score the accumulated checks,
then force the category to 0 and set the flag when the malware check
reports `fail` or `error`. -/
def safetyCategoryResult (checks : List Check) : CategoryResult :=
  let score := calculateCategoryScore (some checks)
  let malwareCheck := checks.find? fun c => c.name = "Malware/Phishing Indicators"
  let malwareFlag : Bool :=
    match malwareCheck with
    | some c => c.status == CheckStatus.fail || c.status == CheckStatus.error
    | none => false
  { category := "Safety & Threats"
    score := if malwareFlag then 0 else score
    checks := checks
    malwareDetected := malwareFlag }

/-! ## Sanity examples -/

example : containsSubstr "https://bit.ly/x" "bit.ly" = true := by decide

example : containsSubstr "https://example.org/a" "t.co" = false := by decide

example : jsToLower "ABC.Org" = "abc.org" := by decide

example : (splitOnChar '.' "a.b.c.d.e".data).length = 5 := by decide

example : jsSetDedup ["a", "b", "a", "c", "b"] = ["a", "b", "c"] := by decide

example : ipv4UrlTest "http://198.51.100.7/login" = true := by decide

example : ipv4UrlTest "http://1234.5.6.7/x" = false := by decide

example : ipv4UrlTest "https://example.org/a" = false := by decide

/-! ## Risk scorer (`ExternalLinksCheck.scoreExternalLink`, lines 288–385)

Inputs beyond the URL string model the host environment:
`hostParse` is the outcome of `new URL(linkUrl).hostname` (line 322,
`none` when the constructor throws), `probe` the outcome of the
`axios.head` reachability probe (`Except.ok` carries the HTTP status,
`Except.error` a connection/timeout exception), and `unexpected` injects
an exception at any other point of the `try` block (the outer catch). -/

/-- The `{score, status, issues}` object returned by `scoreExternalLink`. -/
structure Assessment where
  score : ℤ
  status : String
  issues : List String
deriving DecidableEq

/-- The mutable locals `score`, `status`, `issues` while scoring runs. -/
structure ScoreState where
  score : ℤ
  status : String
  issues : List String
deriving DecidableEq

/-- Line 298. -/
def suspiciousTlds : List String :=
  [".click", ".loan", ".win", ".download", ".bid", ".racing", ".top", ".stream"]

/-- Line 306. -/
def redirectServices : List String :=
  ["bit.ly", "tinyurl", "goo.gl", "ow.ly", "adf.ly", "t.co"]

/-- Lines 297–303: suspicious TLD substring anywhere in the lower-cased URL. -/
def suspiciousTldStep (urlLower : String) (st : ScoreState) : ScoreState :=
  if suspiciousTlds.any fun tld => containsSubstr urlLower tld then
    { score := st.score - 30, status := "Warning", issues := st.issues ++ ["Suspicious TLD"] }
  else st

/-- Lines 305–311: URL-shortener service substring. -/
def redirectServiceStep (urlLower : String) (st : ScoreState) : ScoreState :=
  if redirectServices.any fun service => containsSubstr urlLower service then
    { score := st.score - 20, status := "Warning", issues := st.issues ++ ["URL Shortener"] }
  else st

/-- Lines 313–318: literal IPv4 address after the scheme. -/
def ipAddressStep (linkUrl : String) (st : ScoreState) : ScoreState :=
  if ipv4UrlTest linkUrl then
    { score := st.score - 25, status := "Warning", issues := st.issues ++ ["Direct IP Address"] }
  else st

/-- Lines 320–328: more than 4 dot-separated hostname labels; the inner
`try {} catch (e) {}` makes a failed `new URL` parse a no-op. -/
def subdomainStep (hostParse : Option String) (st : ScoreState) : ScoreState :=
  match hostParse with
  | none => st
  | some hostname =>
    if 4 < (splitOnChar '.' hostname.data).length then
      { st with score := st.score - 15, issues := st.issues ++ ["Multiple Subdomains"] }
    else st

/-- Lines 330–362: the reachability probe and, only when the probe did not
throw, the HTTPS check (both live inside the same inner `try`; a probe
exception jumps to the catch and skips the HTTPS check). -/
def probeStep (linkUrl : String) (probe : Except Unit Nat) (st : ScoreState) : ScoreState :=
  match probe with
  | Except.error _ =>
    { score := st.score - 30, status := "Unreachable", issues := st.issues ++ ["Cannot Connect"] }
  | Except.ok code =>
    let st1 :=
      if code = 404 then
        { score := st.score - 40, status := "Broken", issues := st.issues ++ ["Link Not Found (404)"] }
      else if 500 ≤ code then
        { score := st.score - 20, status := "Warning", issues := st.issues ++ ["Server Error"] }
      else if 300 ≤ code ∧ code < 400 then
        { st with score := st.score - 10, issues := st.issues ++ ["Redirects"] }
      else st
    if !strStartsWith linkUrl "https://" then
      { score := st1.score - 15, status := "Warning", issues := st1.issues ++ ["No HTTPS"] }
    else st1

/-- Lines 364–371: the final status is recomputed from the score thresholds,
unconditionally overwriting whatever the probe wrote into `status`. -/
def finalStatus (score : ℤ) : String :=
  if score < 40 then "Unsafe" else if score < 70 then "Warning" else "Safe"

/-- Line 374: `Math.max(0, Math.min(100, score))`. -/
def jsClamp (score : ℤ) : ℤ :=
  max 0 (min 100 score)

/-- The `try` body of `scoreExternalLink` (lines 293–377). -/
def scoreExternalLinkBody (linkUrl : String) (hostParse : Option String)
    (probe : Except Unit Nat) : Assessment :=
  let urlLower := jsToLower linkUrl
  let st0 : ScoreState := { score := 100, status := "Safe", issues := [] }
  let st1 := suspiciousTldStep urlLower st0
  let st2 := redirectServiceStep urlLower st1
  let st3 := ipAddressStep linkUrl st2
  let st4 := subdomainStep hostParse st3
  let st5 := probeStep linkUrl probe st4
  { score := jsClamp st5.score, status := finalStatus st5.score, issues := st5.issues }

/-- The `try` block as a fallible computation: `unexpected` injects an
exception not already represented by `hostParse`/`probe` (lines 378–384's
"unexpected exception" case). -/
def scoreExternalLinkTry (linkUrl : String) (hostParse : Option String)
    (probe : Except Unit Nat) (unexpected : Bool) : Except Unit Assessment :=
  if unexpected then Except.error ()
  else Except.ok (scoreExternalLinkBody linkUrl hostParse probe)

/-- Lines 379–383: the catch-all result. -/
def analysisErrorAssessment : Assessment :=
  { score := 50, status := "Unknown", issues := ["Analysis Error"] }

/-- `scoreExternalLink` as its caller sees it: the `try` body, with every
exception converted into the `Analysis Error` assessment. -/
def scoreExternalLink (linkUrl : String) (hostParse : Option String)
    (probe : Except Unit Nat) (unexpected : Bool) : Assessment :=
  match scoreExternalLinkTry linkUrl hostParse probe unexpected with
  | Except.ok a => a
  | Except.error _ => analysisErrorAssessment

/-! ## Dynamic extractor (`ExternalLinksCheck.extractDynamicLinks`, lines 387–603)

A `Candidate` is one successfully URL-parsed reference observed by the
browser instrumentation: `absoluteUrl` the absolute URL string and
`linkHostname` the hostname the `new URL` call produced for it
(candidates whose parse threw are dropped by the per-handler `catch`
blocks and therefore never reach these lists). -/

structure Candidate where
  absoluteUrl : String
  linkHostname : String
deriving DecidableEq

/-- What one browser run observed, per instrumentation channel. -/
structure DynamicObservations where
  /-- `page.on('request')` targets (line 427). -/
  requestCands : List Candidate
  /-- `page.on('framenavigated')` targets (line 440). -/
  frameNavCands : List Candidate
  /-- Resolved `Location` headers of 3xx responses (line 451). -/
  responseRedirectCands : List Candidate
  /-- First in-page DOM sweep: anchors, onclick URLs, form actions, iframes (line 473). -/
  domCands : List Candidate
  /-- Post-click DOM sweep (line 563). -/
  afterClickCands : List Candidate
  /-- Raw contents of `window.__redirectLog` (line 583). -/
  apiRedirectLog : List String
deriving DecidableEq

/-- The `{links, redirectLinks}` object `extractDynamicLinks` returns. -/
structure DynamicResult where
  links : List String
  redirectLinks : List String
deriving DecidableEq

/-- `u.startsWith('http://') || u.startsWith('https://')`. -/
def isHttpUrl (u : String) : Bool :=
  strStartsWith u "http://" || strStartsWith u "https://"

/-- The in-page `log` helper installed by `evaluateOnNewDocument`
(lines 403–405): only http/https strings enter `window.__redirectLog`. -/
def instrumentationLog (raw : List String) : List String :=
  raw.filter isHttpUrl

/-- The shared push-site pattern of every DOM extraction loop: keep a
candidate's absolute URL exactly when its hostname differs from the page
hostname. -/
def collectExternal (hostname : String) (cands : List Candidate) : List String :=
  (cands.filter fun c => c.linkHostname != hostname).map fun c => c.absoluteUrl

/-- The pure merge at the end of `extractDynamicLinks`:
`requestedUrls` (hostname- and scheme-filtered, a JS `Set`),
`redirectLinks` from frame navigations (hostname- and scheme-filtered),
3xx `Location` headers (hostname-filtered) and the instrumented-API log
(added with **no hostname filter**, line 584), and `links` from the two
DOM sweeps plus the network requests, deduplicated on return (line 593). -/
def extractDynamicLinks (hostname : String) (obs : DynamicObservations) : DynamicResult :=
  let requestedUrls := jsSetDedup
    ((obs.requestCands.filter fun c =>
        c.linkHostname != hostname && isHttpUrl c.absoluteUrl).map fun c => c.absoluteUrl)
  let fromFrameNavs :=
    (obs.frameNavCands.filter fun c =>
        c.linkHostname != hostname && isHttpUrl c.absoluteUrl).map fun c => c.absoluteUrl
  let fromResponses :=
    (obs.responseRedirectCands.filter fun c =>
        c.linkHostname != hostname).map fun c => c.absoluteUrl
  let apiRedirects := instrumentationLog obs.apiRedirectLog
  let redirectLinks := jsSetDedup (fromFrameNavs ++ fromResponses ++ apiRedirects)
  let dynamicLinks :=
    collectExternal hostname obs.domCands
      ++ collectExternal hostname obs.afterClickCands
      ++ requestedUrls
  { links := jsSetDedup dynamicLinks, redirectLinks := redirectLinks }

/-! ## The analyze pipeline (`ExternalLinksCheck.analyze`, lines 11–286) -/

/-- One entry of the `scoredLinks` output (`score: null` marks the
`Not Scored` sentinel beyond the 50-link cap). -/
structure ScoredLink where
  url : String
  score : Option ℤ
  status : String
  issues : List String
deriving DecidableEq

/-- The `CategoryResult` the external-links check returns. -/
structure CategoryOutput where
  category : String
  score : ℤ
  checks : List Check
  externalLinks : List String
  externalDomains : List String
  scoredLinks : List ScoredLink
deriving DecidableEq

/-- Lines 210–217. -/
def linksDetectedCheck (n : ℕ) : Check :=
  { name := "External Links Detected"
    status := if n = 0 then CheckStatus.info else CheckStatus.pass
    description :=
      if n = 0 then "No external links found on this page"
      else "Found " ++ toString n ++ " unique external link" ++ (if n != 1 then "s" else "")
    severity := Severity.low }

/-- Lines 219–226. -/
def redirectTriggeredCheck (n : ℕ) : Check :=
  { name := "Redirect Triggered External Destinations"
    status := CheckStatus.warn
    description := "Detected " ++ toString n ++ " external navigation"
      ++ (if n != 1 then "s" else "")
      ++ " initiated via scripted redirects / window.location changes"
    severity := Severity.medium }

/-- Lines 239–244. -/
def externalDomainsCheck (n : ℕ) : Check :=
  { name := "External Domains"
    status := CheckStatus.info
    description := "Links point to " ++ toString n ++ " unique external domain"
      ++ (if n != 1 then "s" else "")
    severity := Severity.low }

/-- Lines 248–255. -/
def unsafeLinksCheck (n : ℕ) : Check :=
  { name := "Potentially Unsafe External Links"
    status := if 3 < n then CheckStatus.fail else CheckStatus.warn
    description := toString n ++ " external link" ++ (if n != 1 then "s have" else " has")
      ++ " security concerns"
    severity := Severity.high }

/-- Lines 190–200: score one capped link and wrap it with its URL.  The three
oracles supply, per link, the `new URL` hostname parse, the probe outcome
and whether an unexpected exception fires inside `scoreExternalLink`. -/
def scoreLink (hostOf : String → Option String) (probeOf : String → Except Unit Nat)
    (unexpectedOf : String → Bool) (link : String) : ScoredLink :=
  let a := scoreExternalLink link (hostOf link) (probeOf link) (unexpectedOf link)
  { url := link, score := some a.score, status := a.status, issues := a.issues }

/-- Lines 203–208: the sentinel for links beyond the 50-link cap. -/
def notScoredLink (link : String) : ScoredLink :=
  { url := link, score := none, status := "Not Scored", issues := [] }

/-- The body of `analyze` from line 184 on, plus the outer catch
(lines 268–285).  `dyn` is the inner-try result (`none` when requiring or
running Puppeteer threw, line 29); `fetched` is the outcome of
`axios.get` + static extraction over the fetched markup — `Except.ok`
carries the successfully resolved static candidates in document order,
`Except.error` the message of whatever the `try` block threw. -/
def analyzeBody (hostname : String) (dyn : Option DynamicResult)
    (fetched : Except String (List Candidate))
    (hostOf : String → Option String) (probeOf : String → Except Unit Nat)
    (unexpectedOf : String → Bool) : CategoryOutput :=
  match fetched with
  | Except.error msg =>
    { category := "External Links"
      score := 0
      checks := [{ name := "External Links Analysis Error"
                   status := CheckStatus.error
                   description := "Error analyzing external links: " ++ msg
                   severity := Severity.medium }]
      externalLinks := []
      externalDomains := []
      scoredLinks := [] }
  | Except.ok staticCands =>
    let dynamicLinks := (dyn.map fun d => d.links).getD []
    let redirectLinks := (dyn.map fun d => d.redirectLinks).getD []
    let externalLinks := collectExternal hostname staticCands
    let allLinks := externalLinks ++ dynamicLinks ++ redirectLinks
    let uniqueExternalLinks := jsSetDedup allLinks
    let linksToScore := uniqueExternalLinks.take 50
    let scoredLinks := linksToScore.map (scoreLink hostOf probeOf unexpectedOf)
    let remainingLinks := (uniqueExternalLinks.drop 50).map notScoredLink
    let checks1 := [linksDetectedCheck uniqueExternalLinks.length]
      ++ (if 0 < redirectLinks.length then [redirectTriggeredCheck redirectLinks.length] else [])
    let domains := (uniqueExternalLinks.filterMap hostOf).filter fun h => h != ""
    let uniqueDomains := jsSetDedup domains
    let checks2 := checks1 ++ [externalDomainsCheck uniqueDomains.length]
    let lowScoreLinks := scoredLinks.filter fun l =>
      match l.score with
      | some s => decide (s < 50)
      | none => false
    let checks3 := checks2
      ++ (if 0 < lowScoreLinks.length then [unsafeLinksCheck lowScoreLinks.length] else [])
    let allScoredLinks := scoredLinks ++ remainingLinks
    { category := "External Links"
      score := calculateCategoryScore (some checks3)
      checks := checks3
      externalLinks := uniqueExternalLinks
      externalDomains := uniqueDomains
      scoredLinks := allScoredLinks }

/-- `analyze(url)` from its very first statement: line 13 evaluates
`new URL(url).hostname` *outside* the `try` block, so a URL the WHATWG
parser rejects makes the whole method throw.  `hostnameParse` is that
parse's outcome. -/
def analyze (hostnameParse : Except String String) (dyn : Option DynamicResult)
    (fetched : Except String (List Candidate))
    (hostOf : String → Option String) (probeOf : String → Except Unit Nat)
    (unexpectedOf : String → Bool) : Except String CategoryOutput :=
  match hostnameParse with
  | Except.error e => Except.error e
  | Except.ok hostname => Except.ok (analyzeBody hostname dyn fetched hostOf probeOf unexpectedOf)

/-- The status strings a `LinkAssessment` may carry, per the data model. -/
def linkStatuses : List String :=
  ["Safe", "Warning", "Unsafe", "Broken", "Unreachable", "Unknown", "Not Scored"]

/-! ## Helper lemmas -/

theorem jsSetDedup_foldl_mem (l acc : List String) (x : String) :
    x ∈ l.foldl (fun acc y => if y ∈ acc then acc else acc ++ [y]) acc ↔ x ∈ acc ∨ x ∈ l := by
  induction l generalizing acc with
  | nil => simp
  | cons a t ih =>
    simp only [List.foldl_cons]
    by_cases h : a ∈ acc
    · rw [if_pos h, ih]
      constructor
      · rintro (hx | hx)
        · exact Or.inl hx
        · exact Or.inr (List.mem_cons_of_mem a hx)
      · rintro (hx | hx)
        · exact Or.inl hx
        · rcases List.mem_cons.mp hx with hx | hx
          · exact Or.inl (hx ▸ h)
          · exact Or.inr hx
    · rw [if_neg h, ih]
      simp only [List.mem_append, List.mem_singleton, List.mem_cons]
      tauto

theorem mem_jsSetDedup (l : List String) (x : String) :
    x ∈ jsSetDedup l ↔ x ∈ l := by
  unfold jsSetDedup
  rw [jsSetDedup_foldl_mem]
  simp

theorem jsSetDedup_foldl_nodup (l : List String) (acc : List String) (hacc : acc.Nodup) :
    (l.foldl (fun acc y => if y ∈ acc then acc else acc ++ [y]) acc).Nodup := by
  induction l generalizing acc with
  | nil => simpa using hacc
  | cons a t ih =>
    simp only [List.foldl_cons]
    by_cases h : a ∈ acc
    · rw [if_pos h]; exact ih acc hacc
    · rw [if_neg h]
      refine ih _ ?_
      rw [List.nodup_append]
      exact ⟨hacc, List.nodup_singleton a, by simpa [List.disjoint_singleton] using h⟩

theorem jsSetDedup_nodup (l : List String) : (jsSetDedup l).Nodup :=
  jsSetDedup_foldl_nodup l [] List.nodup_nil

theorem foldl_weighted_pair (l : List Check) (a b : ℚ) :
    l.foldl
        (fun (acc : ℚ × ℚ) check =>
          (acc.1 + statusValue check.status * severityWeight check.severity,
           acc.2 + severityWeight check.severity))
        (a, b)
      = (a + (l.map fun check => statusValue check.status * severityWeight check.severity).sum,
         b + (l.map fun check => severityWeight check.severity).sum) := by
  induction l generalizing a b with
  | nil => simp
  | cons c t ih =>
    simp only [List.foldl_cons, List.map_cons, List.sum_cons]
    rw [ih]
    ring_nf

/-! Score-state step lemmas. -/

theorem suspiciousTldStep_score_le (u : String) (st : ScoreState) :
    (suspiciousTldStep u st).score ≤ st.score := by
  unfold suspiciousTldStep
  split <;> simp

theorem redirectServiceStep_score_le (u : String) (st : ScoreState) :
    (redirectServiceStep u st).score ≤ st.score := by
  unfold redirectServiceStep
  split <;> simp

theorem ipAddressStep_score_le (u : String) (st : ScoreState) :
    (ipAddressStep u st).score ≤ st.score := by
  unfold ipAddressStep
  split <;> simp

theorem subdomainStep_score_le (h : Option String) (st : ScoreState) :
    (subdomainStep h st).score ≤ st.score := by
  unfold subdomainStep
  rcases h with _ | h
  · simp
  · simp only
    split <;> simp

theorem probeStep_score_le (u : String) (p : Except Unit Nat) (st : ScoreState) :
    (probeStep u p st).score ≤ st.score := by
  unfold probeStep
  rcases p with _ | code
  · simp
  · simp only
    split_ifs <;> (try simp) <;> omega

theorem probeStep_404_score_le (u : String) (st : ScoreState) :
    (probeStep u (Except.ok 404) st).score ≤ st.score - 40 := by
  unfold probeStep
  simp only [if_pos rfl]
  split_ifs <;> simp

/-! ## Claims -/

/-- C10: for a `null` or empty list of checks, `calculateCategoryScore`
returns 0 — the division by the total severity weight is guarded, so the
function never divides by zero, never produces NaN and never throws on
empty input. -/
theorem calculateCategoryScore_null_empty :
    calculateCategoryScore none = 0 ∧ calculateCategoryScore (some []) = 0 :=
  ⟨rfl, rfl⟩

/-- C3: for every non-empty list of checks the category score is
`Math.round` of the severity-weighted mean of the status values
(pass 100, info 75, warn 60, fail/error 0; weights critical 3, high 2,
medium 1, low 0.5). -/
theorem categoryScore_weighted_mean (checks : List Check) (h : checks ≠ []) :
    calculateCategoryScore (some checks)
      = jsRound ((checks.map fun c => statusValue c.status * severityWeight c.severity).sum
          / (checks.map fun c => severityWeight c.severity).sum) := by
  show (if checks.length = 0 then (0 : ℤ) else _) = _
  rw [if_neg (by simpa using h)]
  rw [foldl_weighted_pair]
  simp

/-- Witness for C3 at the spec's scenario `[{pass, critical}, {fail, critical}]`:
the score is round((100·3 + 0·3)/6) = 50. -/
theorem categoryScore_weighted_mean_witness :
    ([⟨"Check A", CheckStatus.pass, "A", Severity.critical⟩,
      ⟨"Check B", CheckStatus.fail, "B", Severity.critical⟩] : List Check) ≠ []
    ∧ calculateCategoryScore
        (some [⟨"Check A", CheckStatus.pass, "A", Severity.critical⟩,
               ⟨"Check B", CheckStatus.fail, "B", Severity.critical⟩]) = 50 := by
  refine ⟨by simp, ?_⟩
  rw [categoryScore_weighted_mean _ (by simp)]
  norm_num [statusValue, severityWeight, jsRound]

/-- C1: in an analysis run — a list of category results in which every
entry either leaves `malwareDetected` unset (`false`) or is produced by
the Safety check's finalization — any category carrying the confirmed
threat flag has score exactly 0, and the route's overall score is forced
to exactly 0, regardless of the weighted computations and of the other
categories' scores. -/
theorem malware_flag_forces_zero (cats : List CategoryResult)
    (hproduced : ∀ cat ∈ cats,
      cat.malwareDetected = false ∨ ∃ cs, cat = safetyCategoryResult cs)
    (cat : CategoryResult) (hmem : cat ∈ cats) (hflag : cat.malwareDetected = true) :
    cat.score = 0 ∧ routeOverallScore cats = 0 := by
  have hany : (cats.any fun c => c.malwareDetected) = true :=
    List.any_eq_true.mpr ⟨cat, hmem, hflag⟩
  refine ⟨?_, by simp [routeOverallScore, hany]⟩
  rcases hproduced cat hmem with hfalse | ⟨cs, rfl⟩
  · rw [hfalse] at hflag
    exact absurd hflag (by simp)
  · simp only [safetyCategoryResult] at hflag ⊢
    simp [hflag]

/-- Witness for C1: a run whose Safety category has a failing malware
check — its category score and the overall score are both 0. -/
theorem malware_flag_forces_zero_witness :
    (safetyCategoryResult
        [⟨"Malware/Phishing Indicators", CheckStatus.fail,
          "Phishing/scam indicators detected", Severity.critical⟩]).score = 0
    ∧ routeOverallScore
        [safetyCategoryResult
          [⟨"Malware/Phishing Indicators", CheckStatus.fail,
            "Phishing/scam indicators detected", Severity.critical⟩]] = 0 :=
  malware_flag_forces_zero _
    (by
      intro cat hcat
      rw [List.mem_singleton] at hcat
      exact Or.inr ⟨_, hcat⟩)
    _ (List.mem_singleton.mpr rfl) (by decide)

/-- C4: `scoreExternalLink` never propagates an exception to its caller:
when the `try` body succeeds the caller receives its assessment, and any
unexpected exception yields `{score: 50, status: 'Unknown',
issues: ['Analysis Error']}` instead of aborting. -/
theorem scoreExternalLink_never_throws (linkUrl : String) (hostParse : Option String)
    (probe : Except Unit Nat) (unexpected : Bool) :
    (∀ a, scoreExternalLinkTry linkUrl hostParse probe unexpected = Except.ok a →
        scoreExternalLink linkUrl hostParse probe unexpected = a)
    ∧ (scoreExternalLinkTry linkUrl hostParse probe unexpected = Except.error () →
        scoreExternalLink linkUrl hostParse probe unexpected
          = { score := 50, status := "Unknown", issues := ["Analysis Error"] }) := by
  constructor
  · intro a ha
    unfold scoreExternalLink
    rw [ha]
  · intro ha
    unfold scoreExternalLink
    rw [ha]
    rfl

/-- Witness for C4: an unexpected exception during scoring of a concrete
link produces exactly the Analysis Error assessment. -/
theorem scoreExternalLink_never_throws_witness :
    scoreExternalLink "https://example.org/a" (some "example.org") (Except.ok 200) true
      = { score := 50, status := "Unknown", issues := ["Analysis Error"] } :=
  (scoreExternalLink_never_throws "https://example.org/a" (some "example.org")
    (Except.ok 200) true).2 rfl

/-! Clamp and threshold lemmas for the scorer. -/

theorem jsClamp_nonneg (s : ℤ) : 0 ≤ jsClamp s := by
  unfold jsClamp
  simp only [max_def, min_def]
  split_ifs <;> omega

theorem jsClamp_le_100 (s : ℤ) : jsClamp s ≤ 100 := by
  unfold jsClamp
  simp only [max_def, min_def]
  split_ifs <;> omega

theorem jsClamp_le_of_le (s c : ℤ) (h0 : 0 ≤ c) (h : s ≤ c) : jsClamp s ≤ c := by
  unfold jsClamp
  simp only [max_def, min_def]
  split_ifs <;> omega

/-- For a pre-clamp score that never exceeded its 100 starting point, the
threshold rule reads the same off the clamped final score. -/
theorem finalStatus_eq_threshold_of_clamp (s : ℤ) (h : s ≤ 100) :
    finalStatus s
      = if jsClamp s < 40 then "Unsafe" else if jsClamp s < 70 then "Warning" else "Safe" := by
  unfold finalStatus jsClamp
  simp only [max_def, min_def]
  split_ifs <;> first | rfl | omega

theorem finalStatus_mem_linkStatuses (s : ℤ) : finalStatus s ∈ linkStatuses := by
  unfold finalStatus linkStatuses
  split_ifs <;> simp

/-- The running score after the four URL-shape heuristics is at most the
100 it started from. -/
theorem scorer_state_le_100 (linkUrl : String) (hostParse : Option String) :
    (subdomainStep hostParse (ipAddressStep linkUrl (redirectServiceStep (jsToLower linkUrl)
        (suspiciousTldStep (jsToLower linkUrl) ⟨100, "Safe", []⟩)))).score ≤ 100 := by
  have h0 : (⟨100, "Safe", []⟩ : ScoreState).score = 100 := rfl
  have h1 := suspiciousTldStep_score_le (jsToLower linkUrl) ⟨100, "Safe", []⟩
  have h2 := redirectServiceStep_score_le (jsToLower linkUrl)
    (suspiciousTldStep (jsToLower linkUrl) ⟨100, "Safe", []⟩)
  have h3 := ipAddressStep_score_le linkUrl (redirectServiceStep (jsToLower linkUrl)
    (suspiciousTldStep (jsToLower linkUrl) ⟨100, "Safe", []⟩))
  have h4 := subdomainStep_score_le hostParse (ipAddressStep linkUrl
    (redirectServiceStep (jsToLower linkUrl)
      (suspiciousTldStep (jsToLower linkUrl) ⟨100, "Safe", []⟩)))
  omega

/-- C2 counterexample: a clean link whose probe returns 404 ends with
status `Warning`, not `Broken` — the threshold block at lines 364–371
overwrites the `Broken` status the probe had set. -/
theorem broken_status_overwritten_cex :
    (scoreExternalLink "https://example.org/a" (some "example.org")
        (Except.ok 404) false).score = 60
    ∧ (scoreExternalLink "https://example.org/a" (some "example.org")
        (Except.ok 404) false).status = "Warning"
    ∧ (scoreExternalLink "https://example.org/a" (some "example.org")
        (Except.ok 404) false).status ≠ "Broken" := by
  decide

/-- C2 amended: the final status is resolved purely by the score
thresholds applied after all deductions (<40 → Unsafe, <70 → Warning,
else Safe), unconditionally overwriting any Broken/Unreachable status the
probe set; for a link whose probe returns 404 the score is still ≤ 60 (so
the status is Warning or Unsafe, never Safe — and never Broken). -/
theorem final_status_threshold_resolution (linkUrl : String) (hostParse : Option String)
    (probe : Except Unit Nat) :
    ((scoreExternalLink linkUrl hostParse probe false).status
      = if (scoreExternalLink linkUrl hostParse probe false).score < 40 then "Unsafe"
        else if (scoreExternalLink linkUrl hostParse probe false).score < 70 then "Warning"
        else "Safe")
    ∧ (probe = Except.ok 404 → (scoreExternalLink linkUrl hostParse probe false).score ≤ 60) := by
  have hbody : scoreExternalLink linkUrl hostParse probe false
      = scoreExternalLinkBody linkUrl hostParse probe := rfl
  have hst4 := scorer_state_le_100 linkUrl hostParse
  constructor
  · rw [hbody]
    have hstat : (scoreExternalLinkBody linkUrl hostParse probe).status
        = finalStatus (probeStep linkUrl probe (subdomainStep hostParse
            (ipAddressStep linkUrl (redirectServiceStep (jsToLower linkUrl)
              (suspiciousTldStep (jsToLower linkUrl) ⟨100, "Safe", []⟩))))).score := rfl
    have hsc : (scoreExternalLinkBody linkUrl hostParse probe).score
        = jsClamp (probeStep linkUrl probe (subdomainStep hostParse
            (ipAddressStep linkUrl (redirectServiceStep (jsToLower linkUrl)
              (suspiciousTldStep (jsToLower linkUrl) ⟨100, "Safe", []⟩))))).score := rfl
    rw [hstat, hsc]
    have hle := probeStep_score_le linkUrl probe (subdomainStep hostParse
      (ipAddressStep linkUrl (redirectServiceStep (jsToLower linkUrl)
        (suspiciousTldStep (jsToLower linkUrl) ⟨100, "Safe", []⟩))))
    exact finalStatus_eq_threshold_of_clamp _ (by omega)
  · intro hp
    subst hp
    rw [hbody]
    have hsc : (scoreExternalLinkBody linkUrl hostParse (Except.ok 404)).score
        = jsClamp (probeStep linkUrl (Except.ok 404) (subdomainStep hostParse
            (ipAddressStep linkUrl (redirectServiceStep (jsToLower linkUrl)
              (suspiciousTldStep (jsToLower linkUrl) ⟨100, "Safe", []⟩))))).score := rfl
    rw [hsc]
    have h404 := probeStep_404_score_le linkUrl (subdomainStep hostParse
      (ipAddressStep linkUrl (redirectServiceStep (jsToLower linkUrl)
        (suspiciousTldStep (jsToLower linkUrl) ⟨100, "Safe", []⟩))))
    exact jsClamp_le_of_le _ _ (by norm_num) (by omega)

/-- Witness for C2 (amended) at a concrete 404 link. -/
theorem final_status_threshold_resolution_witness :
    ((scoreExternalLink "https://example.org/a" (some "example.org")
        (Except.ok 404) false).status
      = if (scoreExternalLink "https://example.org/a" (some "example.org")
            (Except.ok 404) false).score < 40 then "Unsafe"
        else if (scoreExternalLink "https://example.org/a" (some "example.org")
            (Except.ok 404) false).score < 70 then "Warning"
        else "Safe")
    ∧ (scoreExternalLink "https://example.org/a" (some "example.org")
        (Except.ok 404) false).score ≤ 60 :=
  ⟨(final_status_threshold_resolution "https://example.org/a" (some "example.org")
      (Except.ok 404)).1,
   (final_status_threshold_resolution "https://example.org/a" (some "example.org")
      (Except.ok 404)).2 rfl⟩

/-- Every assessment `scoreExternalLink` hands back is clamped into
[0, 100] and carries one of the data model's status strings. -/
theorem scoreExternalLink_bounds (linkUrl : String) (hostParse : Option String)
    (probe : Except Unit Nat) (unexpected : Bool) :
    0 ≤ (scoreExternalLink linkUrl hostParse probe unexpected).score
    ∧ (scoreExternalLink linkUrl hostParse probe unexpected).score ≤ 100
    ∧ (scoreExternalLink linkUrl hostParse probe unexpected).status ∈ linkStatuses := by
  rcases unexpected with _ | _
  · have hfalse : scoreExternalLink linkUrl hostParse probe false
        = scoreExternalLinkBody linkUrl hostParse probe := rfl
    rw [hfalse]
    have hsc : (scoreExternalLinkBody linkUrl hostParse probe).score
        = jsClamp (probeStep linkUrl probe (subdomainStep hostParse
            (ipAddressStep linkUrl (redirectServiceStep (jsToLower linkUrl)
              (suspiciousTldStep (jsToLower linkUrl) ⟨100, "Safe", []⟩))))).score := rfl
    have hstat : (scoreExternalLinkBody linkUrl hostParse probe).status
        = finalStatus (probeStep linkUrl probe (subdomainStep hostParse
            (ipAddressStep linkUrl (redirectServiceStep (jsToLower linkUrl)
              (suspiciousTldStep (jsToLower linkUrl) ⟨100, "Safe", []⟩))))).score := rfl
    rw [hsc, hstat]
    exact ⟨jsClamp_nonneg _, jsClamp_le_100 _, finalStatus_mem_linkStatuses _⟩
  · have htrue : scoreExternalLink linkUrl hostParse probe true = analysisErrorAssessment := rfl
    rw [htrue]
    refine ⟨by norm_num [analysisErrorAssessment], by norm_num [analysisErrorAssessment], ?_⟩
    simp [analysisErrorAssessment, linkStatuses]

/-- C7: every `scoredLinks` entry the engine produces has, whenever its
score is non-null, a score in [0, 100], and its status is one of Safe,
Warning, Unsafe, Broken, Unreachable, Unknown, Not Scored. -/
theorem assessment_bounds_and_status_enum (hostname : String) (dyn : Option DynamicResult)
    (fetched : Except String (List Candidate))
    (hostOf : String → Option String) (probeOf : String → Except Unit Nat)
    (unexpectedOf : String → Bool) (sl : ScoredLink)
    (hmem : sl ∈ (analyzeBody hostname dyn fetched hostOf probeOf unexpectedOf).scoredLinks) :
    (∀ s : ℤ, sl.score = some s → 0 ≤ s ∧ s ≤ 100) ∧ sl.status ∈ linkStatuses := by
  rcases fetched with msg | staticCands
  · exact absurd hmem (by simp [analyzeBody])
  · simp only [analyzeBody] at hmem
    rcases List.mem_append.mp hmem with hside | hside
    · rcases List.mem_map.mp hside with ⟨link, _, rfl⟩
      have hb := scoreExternalLink_bounds link (hostOf link) (probeOf link) (unexpectedOf link)
      constructor
      · intro s hs
        have : some (scoreExternalLink link (hostOf link) (probeOf link)
            (unexpectedOf link)).score = some s := hs
        rcases Option.some_inj.mp this with rfl
        exact ⟨hb.1, hb.2.1⟩
      · exact hb.2.2
    · rcases List.mem_map.mp hside with ⟨link, _, rfl⟩
      refine ⟨fun s hs => ?_, by simp [notScoredLink, linkStatuses]⟩
      exact absurd hs (by simp [notScoredLink])

/-- Witness for C7: the single scored link of a one-link run. -/
theorem assessment_bounds_and_status_enum_witness :
    (∀ s : ℤ, (scoreLink (fun _ => some "a.b") (fun _ => Except.ok 200) (fun _ => false)
        "https://a.b/").score = some s → 0 ≤ s ∧ s ≤ 100)
    ∧ (scoreLink (fun _ => some "a.b") (fun _ => Except.ok 200) (fun _ => false)
        "https://a.b/").status ∈ linkStatuses :=
  assessment_bounds_and_status_enum "example.com" none
    (Except.ok [⟨"https://a.b/", "a.b"⟩])
    (fun _ => some "a.b") (fun _ => Except.ok 200) (fun _ => false) _ (by decide)

/-- The isSome-filter over the capped scoring shape keeps exactly the
actually-scored prefix. -/
theorem filter_isSome_capped (uniq : List String)
    (hostOf : String → Option String) (probeOf : String → Except Unit Nat)
    (unexpectedOf : String → Bool) :
    (((uniq.take 50).map (scoreLink hostOf probeOf unexpectedOf)
        ++ (uniq.drop 50).map notScoredLink).filter fun sl => sl.score.isSome)
      = (uniq.take 50).map (scoreLink hostOf probeOf unexpectedOf) := by
  rw [List.filter_append]
  have h1 : ((uniq.take 50).map (scoreLink hostOf probeOf unexpectedOf)).filter
      (fun sl => sl.score.isSome) = (uniq.take 50).map (scoreLink hostOf probeOf unexpectedOf) := by
    apply List.filter_eq_self.mpr
    intro sl hsl
    rcases List.mem_map.mp hsl with ⟨link, _, rfl⟩
    rfl
  have h2 : ((uniq.drop 50).map notScoredLink).filter (fun sl => sl.score.isSome) = [] := by
    apply List.filter_eq_nil_iff.mpr
    intro sl hsl
    rcases List.mem_map.mp hsl with ⟨link, _, rfl⟩
    simp [notScoredLink]
  rw [h1, h2, List.append_nil]

/-- C6: at most 50 unique external links are scored; every link beyond the
50-link cap still appears in the scored-links output with the
`score = null`, `status = 'Not Scored'` sentinel; and the full unique-link
count — cap included — is what the `External Links Detected` check reports. -/
theorem scoring_cap_sentinel (hostname : String) (dyn : Option DynamicResult)
    (staticCands : List Candidate)
    (hostOf : String → Option String) (probeOf : String → Except Unit Nat)
    (unexpectedOf : String → Bool) (out : CategoryOutput)
    (hout : out = analyzeBody hostname dyn (Except.ok staticCands) hostOf probeOf unexpectedOf) :
    out.scoredLinks = (out.externalLinks.take 50).map (scoreLink hostOf probeOf unexpectedOf)
        ++ (out.externalLinks.drop 50).map notScoredLink
    ∧ (out.scoredLinks.filter fun sl => sl.score.isSome).length ≤ 50
    ∧ (∀ link ∈ out.externalLinks.drop 50,
        notScoredLink link ∈ out.scoredLinks
        ∧ (notScoredLink link).score = none ∧ (notScoredLink link).status = "Not Scored")
    ∧ linksDetectedCheck out.externalLinks.length ∈ out.checks := by
  subst hout
  have hshape : (analyzeBody hostname dyn (Except.ok staticCands)
        hostOf probeOf unexpectedOf).scoredLinks
      = ((analyzeBody hostname dyn (Except.ok staticCands)
          hostOf probeOf unexpectedOf).externalLinks.take 50).map
            (scoreLink hostOf probeOf unexpectedOf)
        ++ ((analyzeBody hostname dyn (Except.ok staticCands)
            hostOf probeOf unexpectedOf).externalLinks.drop 50).map notScoredLink := rfl
  refine ⟨hshape, ?_, ?_, ?_⟩
  · rw [hshape, filter_isSome_capped, List.length_map, List.length_take]
    exact min_le_left _ _
  · intro link hlink
    refine ⟨?_, rfl, rfl⟩
    rw [hshape]
    exact List.mem_append_right _ (List.mem_map_of_mem notScoredLink hlink)
  · simp only [analyzeBody]
    simp [List.mem_append]

/-- Witness for C6: a concrete two-link run. -/
theorem scoring_cap_sentinel_witness :
    (analyzeBody "example.com" none
        (Except.ok [⟨"https://a.b/", "a.b"⟩, ⟨"https://c.d/", "c.d"⟩])
        (fun _ => some "a.b") (fun _ => Except.ok 200) (fun _ => false)).scoredLinks
      = (((analyzeBody "example.com" none
            (Except.ok [⟨"https://a.b/", "a.b"⟩, ⟨"https://c.d/", "c.d"⟩])
            (fun _ => some "a.b") (fun _ => Except.ok 200)
            (fun _ => false)).externalLinks.take 50).map
          (scoreLink (fun _ => some "a.b") (fun _ => Except.ok 200) (fun _ => false)))
        ++ (((analyzeBody "example.com" none
            (Except.ok [⟨"https://a.b/", "a.b"⟩, ⟨"https://c.d/", "c.d"⟩])
            (fun _ => some "a.b") (fun _ => Except.ok 200)
            (fun _ => false)).externalLinks.drop 50).map notScoredLink)
    ∧ ((analyzeBody "example.com" none
        (Except.ok [⟨"https://a.b/", "a.b"⟩, ⟨"https://c.d/", "c.d"⟩])
        (fun _ => some "a.b") (fun _ => Except.ok 200)
        (fun _ => false)).scoredLinks.filter fun sl => sl.score.isSome).length ≤ 50
    ∧ (∀ link ∈ (analyzeBody "example.com" none
        (Except.ok [⟨"https://a.b/", "a.b"⟩, ⟨"https://c.d/", "c.d"⟩])
        (fun _ => some "a.b") (fun _ => Except.ok 200)
        (fun _ => false)).externalLinks.drop 50,
        notScoredLink link ∈ (analyzeBody "example.com" none
          (Except.ok [⟨"https://a.b/", "a.b"⟩, ⟨"https://c.d/", "c.d"⟩])
          (fun _ => some "a.b") (fun _ => Except.ok 200)
          (fun _ => false)).scoredLinks
        ∧ (notScoredLink link).score = none ∧ (notScoredLink link).status = "Not Scored")
    ∧ linksDetectedCheck (analyzeBody "example.com" none
        (Except.ok [⟨"https://a.b/", "a.b"⟩, ⟨"https://c.d/", "c.d"⟩])
        (fun _ => some "a.b") (fun _ => Except.ok 200)
        (fun _ => false)).externalLinks.length
      ∈ (analyzeBody "example.com" none
        (Except.ok [⟨"https://a.b/", "a.b"⟩, ⟨"https://c.d/", "c.d"⟩])
        (fun _ => some "a.b") (fun _ => Except.ok 200)
        (fun _ => false)).checks :=
  scoring_cap_sentinel "example.com" none
    [⟨"https://a.b/", "a.b"⟩, ⟨"https://c.d/", "c.d"⟩]
    (fun _ => some "a.b") (fun _ => Except.ok 200) (fun _ => false) _ rfl

/-- C9: the reported unique external domain list contains no duplicate and
every entry is the parsed hostname of some reported unique external link. -/
theorem domains_subset_of_link_hostnames (hostname : String) (dyn : Option DynamicResult)
    (fetched : Except String (List Candidate))
    (hostOf : String → Option String) (probeOf : String → Except Unit Nat)
    (unexpectedOf : String → Bool) (out : CategoryOutput)
    (hout : out = analyzeBody hostname dyn fetched hostOf probeOf unexpectedOf) :
    out.externalDomains.Nodup
    ∧ ∀ d ∈ out.externalDomains, ∃ link ∈ out.externalLinks, hostOf link = some d := by
  subst hout
  rcases fetched with msg | staticCands
  · refine ⟨by simp [analyzeBody], fun d hd => absurd hd (by simp [analyzeBody])⟩
  · constructor
    · simp only [analyzeBody]
      exact jsSetDedup_nodup _
    · intro d hd
      simp only [analyzeBody] at hd ⊢
      rw [mem_jsSetDedup] at hd
      have hfm := (List.mem_filter.mp hd).1
      rcases List.mem_filterMap.mp hfm with ⟨link, hlink, heq⟩
      exact ⟨link, hlink, heq⟩

/-- Witness for C9: a concrete one-link run. -/
theorem domains_subset_of_link_hostnames_witness :
    (analyzeBody "example.com" none (Except.ok [⟨"https://a.b/", "a.b"⟩])
        (fun _ => some "a.b") (fun _ => Except.ok 200)
        (fun _ => false)).externalDomains.Nodup
    ∧ ∀ d ∈ (analyzeBody "example.com" none (Except.ok [⟨"https://a.b/", "a.b"⟩])
        (fun _ => some "a.b") (fun _ => Except.ok 200)
        (fun _ => false)).externalDomains,
        ∃ link ∈ (analyzeBody "example.com" none (Except.ok [⟨"https://a.b/", "a.b"⟩])
          (fun _ => some "a.b") (fun _ => Except.ok 200)
          (fun _ => false)).externalLinks,
          (fun _ => some "a.b") link = some d :=
  domains_subset_of_link_hostnames "example.com" none (Except.ok [⟨"https://a.b/", "a.b"⟩])
    (fun _ => some "a.b") (fun _ => Except.ok 200) (fun _ => false) _ rfl

/-- C5 counterexample: a page at `example.com` whose script drives a
same-host navigation.  The instrumented-API redirect log is merged into
the unique link set with no hostname filter (line 584), so
`uniqueExternalLinks` ends up containing a link whose hostname **equals**
the seed page's hostname. -/
theorem redirect_log_same_host_cex :
    "http://example.com/next"
      ∈ (analyzeBody "example.com"
          (some (extractDynamicLinks "example.com"
            { requestCands := []
              frameNavCands := []
              responseRedirectCands := []
              domCands := []
              afterClickCands := []
              apiRedirectLog := ["http://example.com/next"] }))
          (Except.ok [])
          (fun _ => some "example.com") (fun _ => Except.ok 200)
          (fun _ => false)).externalLinks
    ∧ (fun _ => some "example.com") "http://example.com/next" = some "example.com" := by
  constructor
  · decide
  · rfl

/-- C5 amended: `uniqueExternalLinks` never holds two entries with the
same absolute URL string, and every entry either stems from a candidate
whose parsed hostname differs from the seed hostname (all six static
sources, both DOM sweeps, network requests, frame navigations and 3xx
Location headers are filtered that way) or comes from the
instrumented-API redirect log, which line 584 merges **without** any
hostname filter, so same-hostname entries can enter only through it. -/
theorem unique_links_dedup_and_host_filter (hostname : String)
    (obs : DynamicObservations) (staticCands : List Candidate)
    (hostOf : String → Option String) (probeOf : String → Except Unit Nat)
    (unexpectedOf : String → Bool) (out : CategoryOutput)
    (hout : out = analyzeBody hostname (some (extractDynamicLinks hostname obs))
      (Except.ok staticCands) hostOf probeOf unexpectedOf) :
    out.externalLinks.Nodup
    ∧ ∀ link ∈ out.externalLinks,
        link ∈ obs.apiRedirectLog
        ∨ ∃ c : Candidate,
            (c ∈ staticCands ∨ c ∈ obs.domCands ∨ c ∈ obs.afterClickCands
              ∨ c ∈ obs.requestCands ∨ c ∈ obs.frameNavCands
              ∨ c ∈ obs.responseRedirectCands)
            ∧ c.absoluteUrl = link ∧ c.linkHostname ≠ hostname := by
  subst hout
  constructor
  · simp only [analyzeBody]
    exact jsSetDedup_nodup _
  · intro link hlink
    simp only [analyzeBody, extractDynamicLinks, collectExternal, instrumentationLog,
      Option.map_some', Option.getD_some] at hlink
    rw [mem_jsSetDedup] at hlink
    rcases List.mem_append.mp hlink with hlink | hfromRedirects
    rcases List.mem_append.mp hlink with hfromStatic | hfromDyn
    · rcases List.mem_map.mp hfromStatic with ⟨c, hc, rfl⟩
      have hp := (List.mem_filter.mp hc).2
      exact Or.inr ⟨c, Or.inl (List.mem_filter.mp hc).1, rfl, by simpa using hp⟩
    · rw [mem_jsSetDedup] at hfromDyn
      rcases List.mem_append.mp hfromDyn with hfromDyn | hfromReq
      rcases List.mem_append.mp hfromDyn with hfromDom | hfromClick
      · rcases List.mem_map.mp hfromDom with ⟨c, hc, rfl⟩
        exact Or.inr ⟨c, Or.inr (Or.inl (List.mem_filter.mp hc).1), rfl,
          by simpa using (List.mem_filter.mp hc).2⟩
      · rcases List.mem_map.mp hfromClick with ⟨c, hc, rfl⟩
        exact Or.inr ⟨c, Or.inr (Or.inr (Or.inl (List.mem_filter.mp hc).1)), rfl,
          by simpa using (List.mem_filter.mp hc).2⟩
      · rw [mem_jsSetDedup] at hfromReq
        rcases List.mem_map.mp hfromReq with ⟨c, hc, rfl⟩
        have hp := (List.mem_filter.mp hc).2
        rw [Bool.and_eq_true] at hp
        exact Or.inr ⟨c, Or.inr (Or.inr (Or.inr (Or.inl (List.mem_filter.mp hc).1))), rfl,
          by simpa using hp.1⟩
    · rw [mem_jsSetDedup] at hfromRedirects
      rcases List.mem_append.mp hfromRedirects with hfromRedirects | hfromApi
      rcases List.mem_append.mp hfromRedirects with hfromFrame | hfromResp
      · rcases List.mem_map.mp hfromFrame with ⟨c, hc, rfl⟩
        have hp := (List.mem_filter.mp hc).2
        rw [Bool.and_eq_true] at hp
        exact Or.inr ⟨c, Or.inr (Or.inr (Or.inr (Or.inr (Or.inl
          (List.mem_filter.mp hc).1)))), rfl, by simpa using hp.1⟩
      · rcases List.mem_map.mp hfromResp with ⟨c, hc, rfl⟩
        exact Or.inr ⟨c, Or.inr (Or.inr (Or.inr (Or.inr (Or.inr
          (List.mem_filter.mp hc).1)))), rfl, by simpa using (List.mem_filter.mp hc).2⟩
      · exact Or.inl (List.mem_filter.mp hfromApi).1

/-- Witness for C5 (amended): the same-host redirect-log run — uniqueness
holds and the same-host entry is traced back to the redirect log. -/
theorem unique_links_dedup_and_host_filter_witness :
    (analyzeBody "example.com"
        (some (extractDynamicLinks "example.com"
          { requestCands := []
            frameNavCands := []
            responseRedirectCands := []
            domCands := []
            afterClickCands := []
            apiRedirectLog := ["http://example.com/next"] }))
        (Except.ok [])
        (fun _ => some "example.com") (fun _ => Except.ok 200)
        (fun _ => false)).externalLinks.Nodup
    ∧ ∀ link ∈ (analyzeBody "example.com"
        (some (extractDynamicLinks "example.com"
          { requestCands := []
            frameNavCands := []
            responseRedirectCands := []
            domCands := []
            afterClickCands := []
            apiRedirectLog := ["http://example.com/next"] }))
        (Except.ok [])
        (fun _ => some "example.com") (fun _ => Except.ok 200)
        (fun _ => false)).externalLinks,
        link ∈ ({ requestCands := []
                  frameNavCands := []
                  responseRedirectCands := []
                  domCands := []
                  afterClickCands := []
                  apiRedirectLog := ["http://example.com/next"] }
            : DynamicObservations).apiRedirectLog
        ∨ ∃ c : Candidate,
            (c ∈ ([] : List Candidate) ∨ c ∈ ([] : List Candidate)
              ∨ c ∈ ([] : List Candidate) ∨ c ∈ ([] : List Candidate)
              ∨ c ∈ ([] : List Candidate) ∨ c ∈ ([] : List Candidate))
            ∧ c.absoluteUrl = link ∧ c.linkHostname ≠ "example.com" :=
  unique_links_dedup_and_host_filter "example.com"
    { requestCands := []
      frameNavCands := []
      responseRedirectCands := []
      domCands := []
      afterClickCands := []
      apiRedirectLog := ["http://example.com/next"] }
    [] (fun _ => some "example.com") (fun _ => Except.ok 200) (fun _ => false) _ rfl

/-- C8 counterexample: `new URL(url).hostname` on line 13 runs *outside*
the `try` block, so when the URL parser rejects the input the exception
escapes `analyze` — the engine's boundary does leak for unparseable URLs. -/
theorem analyze_invalid_url_escapes_cex :
    analyze (Except.error "Invalid URL") none (Except.ok [])
        (fun _ => none) (fun _ => Except.ok 200) (fun _ => false)
      = Except.error "Invalid URL" := by
  rfl

/-- C8 amended: for every input URL whose hostname extraction succeeds
(every URL the route's validator admits), `analyze` never lets an
exception past its boundary: Puppeteer failing to launch degrades to the
purely static result, and a fetch failure yields the empty discovery
result (no links, no domains, no scored links) whose only check is the
explanatory error entry of severity `medium` — never `critical`. -/
theorem analyze_no_escape_on_valid_url (hostname : String) (dyn : Option DynamicResult)
    (fetched : Except String (List Candidate))
    (hostOf : String → Option String) (probeOf : String → Except Unit Nat)
    (unexpectedOf : String → Bool) :
    (∃ out, analyze (Except.ok hostname) dyn fetched hostOf probeOf unexpectedOf
        = Except.ok out)
    ∧ analyzeBody hostname none fetched hostOf probeOf unexpectedOf
        = analyzeBody hostname (some { links := [], redirectLinks := [] })
            fetched hostOf probeOf unexpectedOf
    ∧ ∀ msg, fetched = Except.error msg →
        (analyzeBody hostname dyn fetched hostOf probeOf unexpectedOf).externalLinks = []
        ∧ (analyzeBody hostname dyn fetched hostOf probeOf unexpectedOf).externalDomains = []
        ∧ (analyzeBody hostname dyn fetched hostOf probeOf unexpectedOf).scoredLinks = []
        ∧ ∀ c ∈ (analyzeBody hostname dyn fetched hostOf probeOf unexpectedOf).checks,
            c.severity = Severity.medium ∨ c.severity = Severity.low := by
  refine ⟨⟨analyzeBody hostname dyn fetched hostOf probeOf unexpectedOf, rfl⟩, rfl, ?_⟩
  intro msg hmsg
  subst hmsg
  refine ⟨rfl, rfl, rfl, ?_⟩
  intro c hc
  simp only [analyzeBody, List.mem_singleton] at hc
  subst hc
  exact Or.inl rfl

/-- Witness for C8 (amended): a concrete failed-fetch run — the result is
the empty discovery output and its explanatory check is severity medium. -/
theorem analyze_no_escape_on_valid_url_witness :
    (∃ out, analyze (Except.ok "example.com") none (Except.error "timeout of 15000ms exceeded")
        (fun _ => none) (fun _ => Except.ok 200) (fun _ => false) = Except.ok out)
    ∧ analyzeBody "example.com" none (Except.error "timeout of 15000ms exceeded")
        (fun _ => none) (fun _ => Except.ok 200) (fun _ => false)
        = analyzeBody "example.com" (some { links := [], redirectLinks := [] })
            (Except.error "timeout of 15000ms exceeded")
            (fun _ => none) (fun _ => Except.ok 200) (fun _ => false)
    ∧ (analyzeBody "example.com" none (Except.error "timeout of 15000ms exceeded")
        (fun _ => none) (fun _ => Except.ok 200) (fun _ => false)).externalLinks = []
    ∧ (analyzeBody "example.com" none (Except.error "timeout of 15000ms exceeded")
        (fun _ => none) (fun _ => Except.ok 200) (fun _ => false)).externalDomains = []
    ∧ (analyzeBody "example.com" none (Except.error "timeout of 15000ms exceeded")
        (fun _ => none) (fun _ => Except.ok 200) (fun _ => false)).scoredLinks = []
    ∧ ∀ c ∈ (analyzeBody "example.com" none (Except.error "timeout of 15000ms exceeded")
        (fun _ => none) (fun _ => Except.ok 200) (fun _ => false)).checks,
        c.severity = Severity.medium ∨ c.severity = Severity.low := by
  have h := analyze_no_escape_on_valid_url "example.com" none
    (Except.error "timeout of 15000ms exceeded")
    (fun _ => none) (fun _ => Except.ok 200) (fun _ => false)
  have h3 := h.2.2 "timeout of 15000ms exceeded" rfl
  exact ⟨h.1, h.2.1, h3.1, h3.2.1, h3.2.2.1, h3.2.2.2⟩
